import Mathlib

/-!
Shallow embedding of the Genie conversation client (`genie_room.py`):
data model, completion poller, response resolver, result normalizer,
feedback submitter, error mapping of `continue_conversation`, and the
retry combinator used by the authenticated request executor.

JSON dictionaries are embedded as structures with `Option` fields (a
missing key is `none`); HTTP effects are passed in explicitly (the
query-result fetcher is a function argument, the feedback post outcome
is an `Except` argument); the list of query-result fetches performed by
the normalizer is surfaced as an extra component of its return value.
-/

namespace GenieRoom

/-- The `text` sub-dictionary of an attachment: `attachment["text"]`,
whose `content` key may be absent. -/
structure TextField where
  content : Option String
deriving DecidableEq

/-- The `query` sub-dictionary of an attachment: `attachment["query"]`,
whose `query` key (the SQL text) may be absent. -/
structure QueryField where
  query : Option String
deriving DecidableEq

/-- The value of an attachment's `suggested_questions` key.  The code only
distinguishes a dict carrying a `questions` key (whose value it takes
verbatim) from every other shape, which it logs and ignores. -/
inductive SQData where
  | withQuestions (questions : List String)
  | malformed
deriving DecidableEq

/-- One attachment of a message, as inspected by `process_genie_response`. -/
structure Attachment where
  attachment_id : Option String
  text : Option TextField
  query : Option QueryField
  suggested_questions : Option SQData
deriving DecidableEq

/-- One column descriptor of a query-result schema; `col.get('name')`
may be `None`. -/
structure SchemaCol where
  name : Option String
deriving DecidableEq

/-- The value returned by `GenieClient.get_query_result`: the extracted
`data_array` and the schema's column descriptors. -/
structure FetchedResult where
  data_array : List (List String)
  columns : List SchemaCol
deriving DecidableEq

/-- A conversation message as the code reads it: `message_id`, `role`,
`status`, top-level `content` and the `attachments` list (a missing
`attachments` key and an empty list are both the empty list, exactly as
`complete_message.get("attachments", [])` conflates them). -/
structure Msg where
  message_id : Option String
  role : Option String
  status : Option String
  content : Option String
  attachments : List Attachment
deriving DecidableEq

/-! ### Completion poller (`GenieClient.wait_for_message_completion`) -/

/-- The terminal statuses of the polling loop. -/
def terminalStatuses : List String := ["COMPLETED", "ERROR", "FAILED"]

/-- `status in ["COMPLETED", "ERROR", "FAILED"]` on `message.get("status")`. -/
def isTerminal (m : Msg) : Bool :=
  match m.status with
  | some s => terminalStatuses.contains s
  | none => false

/-- Outcome of the polling loop: a terminal message returned as data
together with the number of fetches performed, a raised `TimeoutError`
with the number of fetches performed before it, or an exhausted trace
(the loop would keep polling beyond the supplied trace). -/
inductive PollOutcome where
  | completed (m : Msg) (fetches : Nat)
  | timedOut (fetches : Nat)
  | exhausted
deriving DecidableEq

/-- One iteration of the `while time.time() - start_time < timeout` loop: the
trace supplies, for each iteration, the elapsed time observed at the loop
head and the message the fetch would return.  The elapsed-time check comes
first; only if it passes is the message fetched and its status examined. -/
def pollAux (timeout : Nat) : List (Nat × Msg) → Nat → PollOutcome
  | [], _ => PollOutcome.exhausted
  | (elapsed, m) :: rest, count =>
    if elapsed < timeout then
      if isTerminal m then PollOutcome.completed m (count + 1)
      else pollAux timeout rest (count + 1)
    else PollOutcome.timedOut count

/-- `wait_for_message_completion`, run over an explicit trace of
(elapsed time, fetched message) pairs. -/
def wait_for_message_completion (trace : List (Nat × Msg)) (timeout : Nat) : PollOutcome :=
  pollAux timeout trace 0

/-- The default `timeout` parameter of `wait_for_message_completion`. -/
def defaultTimeout : Nat := 300

/-- The default `poll_interval` parameter of `wait_for_message_completion`. -/
def defaultPollInterval : Nat := 2

/-! ### Response resolver (shared body of `start_new_conversation` and
`continue_conversation`, lines 299-324 / 370-395) -/

/-- Index of the first list entry whose `message_id` equals the submitted
one, mirroring the `for i, msg in enumerate(messages)` scan that breaks at
the first match. -/
def findIdxAux (messageId : Option String) : List Msg → Option Nat
  | [] => none
  | m :: rest =>
    if m.message_id == messageId then some 0
    else (findIdxAux messageId rest).map (fun n => n + 1)

/-- Index of the submitted user message in the fetched message list. -/
def findUserIdx (messages : List Msg) (messageId : Option String) : Option Nat :=
  findIdxAux messageId messages

/-- `bot_response_message`: the entry following the first entry matching the
submitted message id, when that successor exists. -/
def botResponseMessage (messages : List Msg) (messageId : Option String) : Option Msg :=
  match findUserIdx messages messageId with
  | some i => messages[i + 1]?
  | none => none

/-- `full_message` selection: the bot response when found, else the list's
last entry when the list is non-empty, else the message obtained from the
completion poll. -/
def resolveAnswer (messages : List Msg) (messageId : Option String) (completeMessage : Msg) : Msg :=
  match botResponseMessage messages messageId with
  | some b => b
  | none => (messages.getLast?).getD completeMessage

/-! ### Result normalizer (`process_genie_response`) -/

/-- `"text" in attachment and "content" in attachment["text"]`. -/
def hasTextContent (a : Attachment) : Bool :=
  match a.text with
  | some tf => tf.content.isSome
  | none => false

/-- `attachment["text"]["content"]` when both keys are present. -/
def textContentOf (a : Attachment) : Option String :=
  a.text.bind (fun tf => tf.content)

/-- The normalizer's result value: either a text string or the tabular
result (`pd.DataFrame(data_array, columns=columns)`), kept as the column
names (schema names may be `None`) paired with the row set. -/
inductive NormResult where
  | text (s : String)
  | table (columns : List (Option String)) (rows : List (List String))
deriving DecidableEq

/-- `[f"column_{i}" for i in range(k)]`: the positional column names
synthesized when the schema supplies none. -/
def synthColumns (k : Nat) : List (Option String) :=
  (List.range k).map (fun i => some s!"column_{i}")

/-- First pass over the attachments: each attachment whose
`suggested_questions` value is a dict with a `questions` key overwrites the
collected list with that value; every other shape is ignored. -/
def collectSuggested (atts : List Attachment) : List String :=
  atts.foldl (fun acc a =>
    match a.suggested_questions with
    | some (SQData.withQuestions qs) => qs
    | _ => acc) []

/-- Second pass over the attachments, with the mutable `query_text`
threaded through.  Returns the content result (if any attachment produced
one), the final `query_text`, and the list of attachment ids whose query
result was fetched.  A text attachment short-circuits with `query_text`
reset to `none`; a query attachment fetches its result, and either
short-circuits with a table when the row set is non-empty (synthesizing
column names when the schema supplied none) or falls through to the next
attachment with `query_text` updated. -/
def contentPassAux (fetch : Option String → FetchedResult) :
    List Attachment → Option String →
      Option NormResult × Option String × List (Option String)
  | [], queryText => (none, queryText, [])
  | a :: rest, queryText =>
    match textContentOf a with
    | some c => (some (NormResult.text c), none, [])
    | none =>
      match a.query with
      | some qf =>
        let qt := qf.query.getD ""
        let fetched := fetch a.attachment_id
        let cols := fetched.columns.map (fun col => col.name)
        if fetched.data_array.isEmpty then
          let next := contentPassAux fetch rest (some qt)
          (next.1, next.2.1, a.attachment_id :: next.2.2)
        else
          let cols2 :=
            if cols.isEmpty then synthColumns (fetched.data_array.headD []).length
            else cols
          (some (NormResult.table cols2 fetched.data_array), some qt, [a.attachment_id])
      | none => contentPassAux fetch rest queryText

/-- `process_genie_response`: collection pass, content pass, then the
message-content and placeholder fallbacks (both of which return `None` as
the query text; the placeholder also drops the collected suggestions). -/
def process_genie_response (fetch : Option String → FetchedResult) (m : Msg) :
    NormResult × Option String × List String :=
  let suggested := collectSuggested m.attachments
  match contentPassAux fetch m.attachments none with
  | (some r, qt, _) => (r, qt, suggested)
  | (none, _, _) =>
    match m.content with
    | some c => (NormResult.text c, none, suggested)
    | none => (NormResult.text "No response available", none, [])

/-- The query-result fetches performed by the normalizer's content pass. -/
def queryFetches (fetch : Option String → FetchedResult) (m : Msg) : List (Option String) :=
  (contentPassAux fetch m.attachments none).2.2

/-! ### Feedback submitter (`send_message_feedback` / `send_feedback`) -/

/-- `"POSITIVE" if feedback_type == "positive" else "NEGATIVE"`. -/
def rating_value (feedback_type : String) : String :=
  if feedback_type == "positive" then "POSITIVE" else "NEGATIVE"

/-- `send_feedback`: the outcome of the feedback post is passed in; a
successful post yields `True`, any raised error is caught and yields
`False`. -/
def send_feedback (postOutcome : Except String Unit) : Bool :=
  match postOutcome with
  | Except.ok _ => true
  | Except.error _ => false

/-! ### Error mapping of `continue_conversation`'s exception handler -/

/-- Whether `pat` is a prefix of the character list. -/
def listHasPrefixCh : List Char → List Char → Bool
  | [], _ => true
  | _ :: _, [] => false
  | p :: ps, c :: cs => p == c && listHasPrefixCh ps cs

/-- Whether `pat` occurs as a contiguous run of the character list. -/
def listHasInfixCh (pat : List Char) : List Char → Bool
  | [] => listHasPrefixCh pat []
  | c :: cs => listHasPrefixCh pat (c :: cs) || listHasInfixCh pat cs

/-- Python's `pat in s` substring test. -/
def strContainsSub (s pat : String) : Bool :=
  listHasInfixCh pat.toList s.toList

/-- The `except Exception as e` handler of `continue_conversation`, applied
to `str(e)`: the rate-limit patterns are checked first, then
"Conversation not found", then the generic message; the handler returns a
triple and never re-raises. -/
def continue_error_result (e : String) : String × Option String × List String :=
  if strContainsSub e "429" || strContainsSub e "Too Many Requests" then
    ("Sorry, the system is currently experiencing high demand. Please try again in a few moments.",
     none, [])
  else if strContainsSub e "Conversation not found" then
    ("Sorry, the previous conversation has expired. Please try your query again to start a new conversation.",
     none, [])
  else
    (s!"Sorry, an error occurred: {e}", none, [])

/-! ### Retry policy of the authenticated request executor -/

/-- Modelled from the spec: the exponential backoff generator used by the
`backoff.on_exception(backoff.expo, ..., factor=2)` decorators (the
`backoff` library itself is outside the repository): the computed delay
before retry `n + 1` is `factor * 2 ^ n`, so the base delay doubles each
attempt.  Full random jitter then draws the actual wait uniformly from
`[0, delay]`; the draw is passed in as the `jitter` function below. -/
def expoDelay (factor n : Nat) : Nat := factor * 2 ^ n

/-- Modelled from the spec: the retry loop of `backoff.on_exception`.
`outcomes n` is what the decorated call does on attempt `n`; the fuel list
carries one token per still-permitted retry, so an empty list means the
current attempt is the final one and its outcome — success or error —
propagates unchanged.  Returns the final outcome, the number of calls
performed, and the list of waits slept between attempts (each the
jittered exponential delay of the failed attempt's index). -/
def retryAux {E A : Type} (outcomes : Nat → Except E A) (jitter : Nat → Nat) (factor : Nat) :
    Nat → List Unit → Except E A × Nat × List Nat
  | i, [] => (outcomes i, i + 1, [])
  | i, _ :: fuel =>
    match outcomes i with
    | Except.ok a => (Except.ok a, i + 1, [])
    | Except.error _ =>
      let next := retryAux outcomes jitter factor (i + 1) fuel
      (next.1, next.2.1, jitter (expoDelay factor i) :: next.2.2)

/-- Modelled from the spec: the retry policy applied by every
`@backoff.on_exception(backoff.expo, Exception, max_tries=5, factor=2,
jitter=backoff.full_jitter)` decorator in `GenieClient`: 5 total attempts,
hence 4 permitted retries. -/
def retry_on_exception {E A : Type} (outcomes : Nat → Except E A) (jitter : Nat → Nat) :
    Except E A × Nat × List Nat :=
  retryAux outcomes jitter 2 0 [(), (), (), ()]

/-! ### Concrete values used by the witnesses and counterexamples -/

/-- A user message. -/
def msgU : Msg := ⟨some "m1", some "USER", some "COMPLETED", none, []⟩

/-- A bot answer message. -/
def msgB : Msg := ⟨some "m2", some "ASSISTANT", some "COMPLETED", some "hi", []⟩

/-- A message as obtained from the completion poll. -/
def msgP : Msg := ⟨some "m0", none, some "COMPLETED", none, []⟩

/-- A still-processing message. -/
def msgPending : Msg := ⟨some "mA", none, some "EXECUTING_QUERY", none, []⟩

/-- A completed message. -/
def msgDone : Msg := ⟨some "mA", none, some "COMPLETED", none, []⟩

/-- An attachment with inline text content. -/
def attText : Attachment := ⟨none, some ⟨some "hello"⟩, none, none⟩

/-- An attachment with a query specification. -/
def attQuery : Attachment := ⟨some "att1", none, some ⟨some "SELECT 1"⟩, none⟩

/-- An attachment carrying only a well-formed suggested-questions payload. -/
def attSQ : Attachment := ⟨none, none, none, some (SQData.withQuestions ["A", "B"])⟩

/-- A fetcher whose query results are empty. -/
def fetch0 : Option String → FetchedResult := fun _ => ⟨[], []⟩

/-- A fetcher returning 3 rows of 4 values with an empty schema. -/
def fetchRows : Option String → FetchedResult :=
  fun _ => ⟨[["a", "b", "c", "d"], ["e", "f", "g", "h"], ["i", "j", "k", "l"]], []⟩

/-- A message whose only attachments are a text one then a query one. -/
def mC3 : Msg := ⟨some "m3", none, some "COMPLETED", none, [attText, attQuery]⟩

/-- A message with no content anywhere. -/
def msgEmpty : Msg := ⟨some "m9", none, some "COMPLETED", none, []⟩

/-- A message with top-level content and no attachments. -/
def msgContent : Msg := ⟨some "m8", none, some "COMPLETED", some "direct", []⟩

/-- A message whose only attachment is a query attachment. -/
def mC5 : Msg := ⟨some "m5", none, some "COMPLETED", none, [attQuery]⟩

/-- A message whose only attachment carries suggested questions. -/
def mC6 : Msg := ⟨some "m6", none, some "COMPLETED", none, [attSQ]⟩

/-- A message carrying suggested questions and a text attachment. -/
def mC6w : Msg := ⟨some "m7", none, some "COMPLETED", none, [attSQ, attText]⟩

/-- A message with a query attachment and top-level content. -/
def mC10 : Msg := ⟨some "mx", none, some "COMPLETED", some "fallback text", [attQuery]⟩

/-- Attempt outcomes failing twice then succeeding. -/
def outcomesW : Nat → Except String Nat :=
  fun n => if n < 2 then Except.error "boom" else Except.ok 7

/-! ### Helper lemmas -/

/-- A found index points at a matching entry within the list. -/
theorem findIdxAux_lt_length (mid : Option String) (messages : List Msg) (i : Nat)
    (h : findIdxAux mid messages = some i) : i < messages.length := by
  induction messages generalizing i with
  | nil => simp [findIdxAux] at h
  | cons m rest ih =>
    rw [findIdxAux] at h
    by_cases hm : (m.message_id == mid) = true
    · rw [if_pos hm, Option.some_inj] at h
      simp only [List.length_cons]
      omega
    · rw [if_neg hm] at h
      rw [Option.map_eq_some'] at h
      obtain ⟨j, hj, hji⟩ := h
      have := ih j hj
      simp only [List.length_cons]
      omega

/-- `resolveAnswer` unfolded at a found index with a successor. -/
theorem resolveAnswer_found (messages : List Msg) (mid : Option String) (cm : Msg)
    (i : Nat) (hfind : findUserIdx messages mid = some i) (h : i + 1 < messages.length) :
    resolveAnswer messages mid cm = messages.get ⟨i + 1, h⟩ := by
  have hb : botResponseMessage messages mid = some (messages.get ⟨i + 1, h⟩) := by
    unfold botResponseMessage
    rw [hfind]
    show messages[i + 1]? = some (messages.get ⟨i + 1, h⟩)
    rw [List.getElem?_eq_getElem h]
    rfl
  unfold resolveAnswer
  rw [hb]

/-- Processing a trace of in-budget, non-terminal polls only advances the
fetch counter. -/
theorem pollAux_append (timeout : Nat) (pre : List (Nat × Msg))
    (hpre : ∀ p ∈ pre, p.1 < timeout ∧ isTerminal p.2 = false)
    (suffix : List (Nat × Msg)) (count : Nat) :
    pollAux timeout (pre ++ suffix) count = pollAux timeout suffix (count + pre.length) := by
  induction pre generalizing count with
  | nil => simp
  | cons p pre ih =>
    obtain ⟨he, ht⟩ := hpre p (by simp)
    obtain ⟨e, m⟩ := p
    simp only [List.cons_append, pollAux]
    simp only at he ht
    rw [if_pos he, ht]
    simp only [Bool.false_eq_true, if_false, List.append_eq]
    rw [ih (fun q hq => hpre q (by simp [hq]))]
    congr 1
    simp only [List.length_cons]
    omega

/-- The content pass ignores attachments with neither text content nor a
query specification. -/
theorem contentPassAux_skip (fetch : Option String → FetchedResult)
    (pre : List Attachment)
    (hpre : ∀ b ∈ pre, textContentOf b = none ∧ b.query = none)
    (rest : List Attachment) (qt : Option String) :
    contentPassAux fetch (pre ++ rest) qt = contentPassAux fetch rest qt := by
  induction pre with
  | nil => rfl
  | cons a pre ih =>
    obtain ⟨ht, hq⟩ := hpre a (by simp)
    rw [List.cons_append]
    simp only [contentPassAux, ht, hq]
    exact ih (fun b hb => hpre b (by simp [hb]))

/-! ### Claim theorems -/

/-- Claim C1: when the entry matching the submitted message id sits at index
`i` with `i < length - 1`, the resolver selects the entry at index `i + 1`;
when the id is not found, or its entry has no successor, the polled message
is used, replaced by the list's last entry exactly when the list is
non-empty. -/
theorem c1_resolver (messages : List Msg) (mid : Option String) (cm : Msg) :
    (∀ i, findUserIdx messages mid = some i → ∀ h : i + 1 < messages.length,
        resolveAnswer messages mid cm = messages.get ⟨i + 1, h⟩)
    ∧ (findUserIdx messages mid = none →
        resolveAnswer messages mid cm = (messages.getLast?).getD cm)
    ∧ (∀ i, findUserIdx messages mid = some i → messages.length ≤ i + 1 →
        resolveAnswer messages mid cm = (messages.getLast?).getD cm) := by
  refine ⟨fun i hf h => resolveAnswer_found messages mid cm i hf h, ?_, ?_⟩
  · intro hf
    unfold resolveAnswer botResponseMessage
    rw [hf]
  · intro i hf hlen
    have hb : botResponseMessage messages mid = none := by
      unfold botResponseMessage
      rw [hf]
      show messages[i + 1]? = none
      exact List.getElem?_eq_none hlen
    unfold resolveAnswer
    rw [hb]

/-- Witness for C1 on a two-message list whose first entry matches. -/
theorem c1_resolver_witness : resolveAnswer [msgU, msgB] (some "m1") msgP = msgB := by
  have h := (c1_resolver [msgU, msgB] (some "m1") msgP).1 0 (by decide) (by decide)
  simpa using h

/-- Claim C2: a trace of N in-budget non-terminal polls followed by an
in-budget terminal poll makes the poller fetch exactly N + 1 times and
return the terminal message as data; once the elapsed time reaches the
timeout before a terminal status is seen, the poller raises Timeout and
performs no further fetches.  The default timeout is 300 seconds. -/
theorem c2_poller (timeout : Nat) (pre : List (Nat × Msg)) (e : Nat) (m : Msg) :
    ((∀ p ∈ pre, p.1 < timeout ∧ isTerminal p.2 = false) → e < timeout →
      isTerminal m = true →
      wait_for_message_completion (pre ++ [(e, m)]) timeout =
        PollOutcome.completed m (pre.length + 1))
    ∧ (∀ rest : List (Nat × Msg),
        (∀ p ∈ pre, p.1 < timeout ∧ isTerminal p.2 = false) → timeout ≤ e →
        wait_for_message_completion (pre ++ (e, m) :: rest) timeout =
          PollOutcome.timedOut pre.length)
    ∧ defaultTimeout = 300 := by
  refine ⟨?_, ?_, rfl⟩
  · intro hpre he ht
    unfold wait_for_message_completion
    rw [pollAux_append timeout pre hpre [(e, m)] 0]
    simp [pollAux, he, ht]
  · intro rest hpre he
    unfold wait_for_message_completion
    rw [pollAux_append timeout pre hpre ((e, m) :: rest) 0]
    simp [pollAux, Nat.not_lt.mpr he]

/-- Witness for C2: one pending poll then a completed poll, two fetches. -/
theorem c2_poller_witness :
    wait_for_message_completion [(0, msgPending), (2, msgDone)] 300 =
      PollOutcome.completed msgDone 2 := by
  have h := (c2_poller 300 [(0, msgPending)] 2 msgDone).1 (by decide) (by decide) (by decide)
  simpa using h

/-- Claim C3: when a text-content attachment precedes any content-yielding
attachment (in particular, text attachment then query attachment), the
normalizer returns the text content with query text `none` and performs no
query-result fetch. -/
theorem c3_text_short_circuit (fetch : Option String → FetchedResult) (m : Msg)
    (pre rest : List Attachment) (t : Attachment) (c : String)
    (hatt : m.attachments = pre ++ t :: rest)
    (hpre : ∀ b ∈ pre, textContentOf b = none ∧ b.query = none)
    (htc : textContentOf t = some c) :
    (process_genie_response fetch m).1 = NormResult.text c
    ∧ (process_genie_response fetch m).2.1 = none
    ∧ queryFetches fetch m = [] := by
  have hcp : contentPassAux fetch m.attachments none =
      (some (NormResult.text c), none, []) := by
    rw [hatt, contentPassAux_skip fetch pre hpre]
    simp only [contentPassAux, htc]
  refine ⟨?_, ?_, ?_⟩ <;> simp [process_genie_response, queryFetches, hcp]

/-- Witness for C3: a text attachment followed by a query attachment. -/
theorem c3_text_short_circuit_witness :
    (process_genie_response fetchRows mC3).1 = NormResult.text "hello"
    ∧ (process_genie_response fetchRows mC3).2.1 = none
    ∧ queryFetches fetchRows mC3 = [] :=
  c3_text_short_circuit fetchRows mC3 [] [attQuery] attText "hello" rfl (by simp) rfl

/-- Counterexample to C4 as stated: the placeholder the code returns is
capitalized "No response available", not "no response available". -/
theorem c4_counterexample :
    (process_genie_response fetch0 msgEmpty).1 = NormResult.text "No response available"
    ∧ (process_genie_response fetch0 msgEmpty).1 ≠ NormResult.text "no response available" := by
  decide

/-- Claim C4 (amended): when no attachment yields a content result, the
normalizer returns the message's top-level content when present and
otherwise the placeholder "No response available"; it returns normally in
both cases. -/
theorem c4_fallbacks (fetch : Option String → FetchedResult) (m : Msg)
    (hnone : (contentPassAux fetch m.attachments none).1 = none) :
    (∀ c, m.content = some c →
      process_genie_response fetch m =
        (NormResult.text c, none, collectSuggested m.attachments))
    ∧ (m.content = none →
      process_genie_response fetch m =
        (NormResult.text "No response available", none, [])) := by
  rcases hcp : contentPassAux fetch m.attachments none with ⟨r, qt, ids⟩
  rw [hcp] at hnone
  simp only at hnone
  subst hnone
  constructor
  · intro c hc
    simp [process_genie_response, hcp, hc]
  · intro hc
    simp [process_genie_response, hcp, hc]

/-- Witness for C4 (amended): a message with only top-level content. -/
theorem c4_fallbacks_witness :
    process_genie_response fetch0 msgContent = (NormResult.text "direct", none, []) := by
  have h := (c4_fallbacks fetch0 msgContent (by decide)).1 "direct" rfl
  simpa using h

/-- Claim C5: a query attachment whose fetched result has rows but whose
schema supplies no column descriptors yields a table whose column names are
synthesized positionally, one per value of the first row, over exactly the
fetched rows, with the attachment's query text returned. -/
theorem c5_synth_columns (fetch : Option String → FetchedResult) (m : Msg)
    (pre rest : List Attachment) (a : Attachment) (qf : QueryField)
    (r0 : List String) (rs : List (List String))
    (hatt : m.attachments = pre ++ a :: rest)
    (hpre : ∀ b ∈ pre, textContentOf b = none ∧ b.query = none)
    (hta : textContentOf a = none)
    (hqa : a.query = some qf)
    (hfetch : fetch a.attachment_id = ⟨r0 :: rs, []⟩) :
    process_genie_response fetch m =
      (NormResult.table (synthColumns r0.length) (r0 :: rs),
       some (qf.query.getD ""), collectSuggested m.attachments)
    ∧ (synthColumns r0.length).length = r0.length := by
  constructor
  · have hcp : contentPassAux fetch m.attachments none =
        (some (NormResult.table (synthColumns r0.length) (r0 :: rs)),
         some (qf.query.getD ""), [a.attachment_id]) := by
      rw [hatt, contentPassAux_skip fetch pre hpre]
      simp [contentPassAux, hta, hqa, hfetch]
    simp [process_genie_response, hcp]
  · simp [synthColumns]

/-- Witness for C5: 3 rows of 4 values, empty schema, 4 synthetic names. -/
theorem c5_synth_columns_witness :
    process_genie_response fetchRows mC5 =
      (NormResult.table
        [some "column_0", some "column_1", some "column_2", some "column_3"]
        [["a", "b", "c", "d"], ["e", "f", "g", "h"], ["i", "j", "k", "l"]],
       some "SELECT 1", []) := by
  have h := (c5_synth_columns fetchRows mC5 [] [] attQuery ⟨some "SELECT 1"⟩
      ["a", "b", "c", "d"] [["e", "f", "g", "h"], ["i", "j", "k", "l"]]
      rfl (by simp) rfl rfl rfl).1
  exact h.trans (by decide)

/-- Counterexample to C6 as stated: a message whose only attachment carries
`suggested_questions: {questions: ["A","B"]}` but which yields no content
result and has no top-level content takes the placeholder path, which
returns an empty suggestions list. -/
theorem c6_counterexample :
    (process_genie_response fetch0 mC6).2.2 = []
    ∧ (process_genie_response fetch0 mC6).2.2 ≠ ["A", "B"] := by
  decide

/-- Claim C6 (amended): the collection pass returns the questions of the
last attachment carrying a well-formed suggested-questions payload
verbatim, and malformed or absent payloads are ignored without raising;
the normalizer returns the collected list whenever the content result is
supplied by an attachment or by the message's top-level content, while the
placeholder path returns an empty suggestions list. -/
theorem c6_suggestions (fetch : Option String → FetchedResult) (m : Msg) :
    (((contentPassAux fetch m.attachments none).1.isSome = true
        ∨ m.content.isSome = true) →
      (process_genie_response fetch m).2.2 = collectSuggested m.attachments)
    ∧ (∀ (atts : List Attachment) (a : Attachment) (qs : List String),
        a.suggested_questions = some (SQData.withQuestions qs) →
        collectSuggested (atts ++ [a]) = qs)
    ∧ (∀ (atts : List Attachment) (a : Attachment),
        (a.suggested_questions = none ∨ a.suggested_questions = some SQData.malformed) →
        collectSuggested (atts ++ [a]) = collectSuggested atts) := by
  refine ⟨?_, ?_, ?_⟩
  · intro h
    rcases hcp : contentPassAux fetch m.attachments none with ⟨r, qt, ids⟩
    cases r with
    | some r => simp [process_genie_response, hcp]
    | none =>
      rw [hcp] at h
      simp only [Option.isSome_none, Bool.false_eq_true, false_or] at h
      rcases hc : m.content with _ | c
      · rw [hc] at h
        simp at h
      · simp [process_genie_response, hcp, hc]
  · intro atts a qs hq
    unfold collectSuggested
    rw [List.foldl_append]
    simp [hq]
  · intro atts a hq
    unfold collectSuggested
    rw [List.foldl_append]
    rcases hq with hq | hq <;> simp [hq]

/-- Witness for C6 (amended): suggestions survive when a text attachment
supplies the content. -/
theorem c6_suggestions_witness :
    (process_genie_response fetch0 mC6w).2.2 = ["A", "B"] := by
  have h := (c6_suggestions fetch0 mC6w).1 (Or.inl (by decide))
  exact h.trans (by decide)

/-- Claim C7: sentiment "positive" posts rating "POSITIVE", every other
sentiment posts "NEGATIVE"; `send_feedback` returns `true` exactly on a
successful post and `false` on any failure, propagating nothing. -/
theorem c7_feedback (ft : String) :
    rating_value "positive" = "POSITIVE"
    ∧ (ft ≠ "positive" → rating_value ft = "NEGATIVE")
    ∧ (∀ u : Unit, send_feedback (Except.ok u) = true)
    ∧ (∀ err : String, send_feedback (Except.error err) = false) := by
  refine ⟨rfl, ?_, fun u => rfl, fun err => rfl⟩
  intro h
  simp [rating_value, h]

/-- Witness for C7: a non-positive sentiment and a failed post. -/
theorem c7_feedback_witness :
    rating_value "negative" = "NEGATIVE" ∧ send_feedback (Except.error "boom") = false := by
  have h := c7_feedback "negative"
  exact ⟨h.2.1 (by decide), h.2.2.2 "boom"⟩

/-- Counterexample to C8 as stated: an error text containing both "429" and
"Conversation not found" is mapped to the rate-limit message, not the
conversation-expired message, because the rate-limit patterns are checked
first. -/
theorem c8_counterexample :
    strContainsSub "Conversation not found (HTTP 429)" "Conversation not found" = true
    ∧ (continue_error_result "Conversation not found (HTTP 429)").1 ≠
        "Sorry, the previous conversation has expired. Please try your query again to start a new conversation."
    ∧ (continue_error_result "Conversation not found (HTTP 429)").1 =
        "Sorry, the system is currently experiencing high demand. Please try again in a few moments." := by
  decide

/-- Claim C8 (amended): the handler checks the rate-limit patterns first
("429" or "Too Many Requests" in the error text) and returns the
try-again-later result; only texts matching neither rate-limit pattern but
containing "Conversation not found" get the conversation-expired result;
every other text gets the generic failure text; the handler always returns
a triple and never re-raises. -/
theorem c8_error_mapping (e : String) :
    ((strContainsSub e "429" = true ∨ strContainsSub e "Too Many Requests" = true) →
      continue_error_result e =
        ("Sorry, the system is currently experiencing high demand. Please try again in a few moments.",
         none, []))
    ∧ (strContainsSub e "429" = false → strContainsSub e "Too Many Requests" = false →
       strContainsSub e "Conversation not found" = true →
      continue_error_result e =
        ("Sorry, the previous conversation has expired. Please try your query again to start a new conversation.",
         none, []))
    ∧ (strContainsSub e "429" = false → strContainsSub e "Too Many Requests" = false →
       strContainsSub e "Conversation not found" = false →
      continue_error_result e = (s!"Sorry, an error occurred: {e}", none, [])) := by
  refine ⟨?_, ?_, ?_⟩
  · intro h
    rcases h with h | h <;> simp [continue_error_result, h]
  · intro h1 h2 h3
    simp [continue_error_result, h1, h2, h3]
  · intro h1 h2 h3
    simp [continue_error_result, h1, h2, h3]

/-- Witness for C8 (amended): a pure conversation-expired error text. -/
theorem c8_error_mapping_witness :
    continue_error_result "Conversation not found" =
      ("Sorry, the previous conversation has expired. Please try your query again to start a new conversation.",
       none, []) :=
  (c8_error_mapping "Conversation not found").2.1 (by decide) (by decide) (by decide)

/-- Claim C9: every executor request retries on any raised error with
exponentially doubling base delays under full jitter, capped at 5 total
attempts; five failures propagate the final attempt's error unchanged
after exactly 5 calls and 4 jittered waits, an earlier success returns
after exactly its attempt count, and the computed delay doubles each
attempt. -/
theorem c9_retry {E A : Type} (outcomes : Nat → Except E A) (jitter : Nat → Nat) :
    (∀ errs : Nat → E, (∀ n, n < 5 → outcomes n = Except.error (errs n)) →
      retry_on_exception outcomes jitter =
        (Except.error (errs 4), 5,
         [jitter (expoDelay 2 0), jitter (expoDelay 2 1),
          jitter (expoDelay 2 2), jitter (expoDelay 2 3)]))
    ∧ (∀ k a, k < 5 → outcomes k = Except.ok a →
        (∀ n, n < k → ∃ err, outcomes n = Except.error err) →
        (retry_on_exception outcomes jitter).1 = Except.ok a
        ∧ (retry_on_exception outcomes jitter).2.1 = k + 1)
    ∧ (∀ n, expoDelay 2 (n + 1) = 2 * expoDelay 2 n) := by
  refine ⟨?_, ?_, ?_⟩
  · intro errs h
    have h0 := h 0 (by omega)
    have h1 := h 1 (by omega)
    have h2 := h 2 (by omega)
    have h3 := h 3 (by omega)
    have h4 := h 4 (by omega)
    simp [retry_on_exception, retryAux, h0, h1, h2, h3, h4]
  · intro k a hk hok hpre
    interval_cases k
    · constructor <;> simp [retry_on_exception, retryAux, hok]
    · obtain ⟨e0, he0⟩ := hpre 0 (by omega)
      constructor <;> simp [retry_on_exception, retryAux, he0, hok]
    · obtain ⟨e0, he0⟩ := hpre 0 (by omega)
      obtain ⟨e1, he1⟩ := hpre 1 (by omega)
      constructor <;> simp [retry_on_exception, retryAux, he0, he1, hok]
    · obtain ⟨e0, he0⟩ := hpre 0 (by omega)
      obtain ⟨e1, he1⟩ := hpre 1 (by omega)
      obtain ⟨e2, he2⟩ := hpre 2 (by omega)
      constructor <;> simp [retry_on_exception, retryAux, he0, he1, he2, hok]
    · obtain ⟨e0, he0⟩ := hpre 0 (by omega)
      obtain ⟨e1, he1⟩ := hpre 1 (by omega)
      obtain ⟨e2, he2⟩ := hpre 2 (by omega)
      obtain ⟨e3, he3⟩ := hpre 3 (by omega)
      constructor <;> simp [retry_on_exception, retryAux, he0, he1, he2, he3, hok]
  · intro n
    simp [expoDelay, pow_succ]
    ring

/-- Witness for C9: two failures then a success returns after 3 calls. -/
theorem c9_retry_witness :
    (retry_on_exception outcomesW id).1 = Except.ok 7
    ∧ (retry_on_exception outcomesW id).2.1 = 3 := by
  have h := (c9_retry outcomesW id).2.1 2 7 (by omega) rfl
      (fun n hn => ⟨"boom", by interval_cases n <;> rfl⟩)
  exact ⟨h.1, h.2⟩

/-- Claim C10: a query attachment whose fetched result has no rows yields
no tabular result — the content pass records the fetch, updates the query
text, and continues with the remaining attachments — and whenever the
content pass produces no result the returned query text is `none` in both
the message-content and placeholder fallbacks. -/
theorem c10_empty_rows (fetch : Option String → FetchedResult) (a : Attachment)
    (qf : QueryField) (rest : List Attachment) (qt : Option String)
    (hta : textContentOf a = none) (hqa : a.query = some qf)
    (hrows : (fetch a.attachment_id).data_array = []) :
    ((contentPassAux fetch (a :: rest) qt).1 =
        (contentPassAux fetch rest (some (qf.query.getD ""))).1
      ∧ (contentPassAux fetch (a :: rest) qt).2.2 =
        a.attachment_id :: (contentPassAux fetch rest (some (qf.query.getD ""))).2.2)
    ∧ (∀ m : Msg, (contentPassAux fetch m.attachments none).1 = none →
        (process_genie_response fetch m).2.1 = none) := by
  constructor
  · constructor <;> simp [contentPassAux, hta, hqa, hrows]
  · intro m hm
    rcases hcp : contentPassAux fetch m.attachments none with ⟨r, q, ids⟩
    rw [hcp] at hm
    simp only at hm
    subst hm
    rcases hc : m.content with _ | c <;> simp [process_genie_response, hcp, hc]

/-- Witness for C10: a lone query attachment with an empty result. -/
theorem c10_empty_rows_witness :
    (contentPassAux fetch0 [attQuery] none).1 = none
    ∧ (contentPassAux fetch0 [attQuery] none).2.2 = [some "att1"]
    ∧ (process_genie_response fetch0 mC10).2.1 = none := by
  have h := c10_empty_rows fetch0 attQuery ⟨some "SELECT 1"⟩ [] none rfl rfl rfl
  refine ⟨h.1.1.trans (by decide), h.1.2.trans (by decide), h.2 mC10 (by decide)⟩

end GenieRoom
